import Mathlib

/-!
Verification of the Patient-Scheduler_System repository.

The repository ships a TypeScript client (frontend/src/services/api.ts)
for a FastAPI backend.  The backend source (backend/schedule_manager.py,
backend/main.py) is not part of the source tree given here, so the
Booking Engine, Slot Grid, Filter and Statistics components are modelled
from the specification (spec.md sections 3, 4.1 - 4.3, 7); the client
functions are embedded directly from api.ts.

Conventions of the embedding:
* A slot grid is an insertion-ordered association list from time label to
  an optional booking, mirroring the Python dict persisted in
  schedule_data.json (`"09:00": null`, `"09:30": \x7bpatient, doctor\x7d`, ...).
* The schedule store is an association list from ISO date to grid.
* Every Booking Engine operation returns the error-or-result together
  with the store it leaves behind, so "state unchanged on error" is a
  provable statement rather than a convention.
-/

namespace Scheduler

/-- Day start in minutes after midnight: 09:00 (spec section 3: constant
day-start 09:00). -/
def dayStart : Nat := 9 * 60

/-- Day end in minutes after midnight: 17:00. -/
def dayEnd : Nat := 17 * 60

/-- Slot interval in minutes: 30. -/
def interval : Nat := 30

/-- Maximum permitted bookings per date (spec section 4.2: policy
constant, 16 per day). -/
def maxPerDay : Nat := 16

/-- Zero-pad a number below 100 to two digits. -/
def pad2 (n : Nat) : String :=
  if n < 10 then "0" ++ toString n else toString n

/-- Render minutes-after-midnight as an HH:MM time label. -/
def minutesToLabel (m : Nat) : String :=
  pad2 (m / 60) ++ ":" ++ pad2 (m % 60)

/-- Modelled from the spec: the fixed ordered sequence of time labels of
every date's grid, derived from the day-start/day-end/interval constants
(spec section 4.1; 09:00, 09:30, ..., 16:30). -/
def timeLabels : List String :=
  (List.range ((dayEnd - dayStart) / interval)).map
    (fun i => minutesToLabel (dayStart + i * interval))

/-- Booking Record (spec section 3; INTEGRATION_README "Patient Object").
All attributes are strings except the tag list; optional attributes are
the empty string when absent, matching the JSON payload. -/
structure Patient where
  name : String
  condition : String
  phone : String
  email : String
  dateOfBirth : String
  address : String
  insuranceProvider : String
  insuranceId : String
  emergencyContactName : String
  emergencyContactPhone : String
  notes : String
  visitType : String
  status : String
  tags : List String
  createdAt : String
  lastModified : String
  deriving DecidableEq, Repr

/-- An occupied slot: the Booking Record plus the assigned doctor
identifier (INTEGRATION_README "Schedule Structure"). -/
structure Booking where
  patient : Patient
  doctor : String
  deriving DecidableEq, Repr

/-- A Slot Grid: insertion-ordered association list from time label to
occupant (`none` is an empty slot), mirroring the per-date dict of the
persisted JSON file. -/
abbrev Grid : Type := List (String × Option Booking)

/-- Occupant of a time label in a grid; an absent key and a key mapped
to null both read as an empty slot. -/
def lookupSlot (g : Grid) (t : String) : Option Booking :=
  match g with
  | [] => none
  | (t', v) :: rest => if t' = t then v else lookupSlot rest t

/-- Write a time label's occupant, with Python-dict semantics: replace
the first entry carrying the key, else append a new entry. -/
def setSlot (g : Grid) (t : String) (v : Option Booking) : Grid :=
  match g with
  | [] => [(t, v)]
  | (t', v') :: rest =>
      if t' = t then (t, v) :: rest else (t', v') :: setSlot rest t v

/-- Modelled from the spec: the per-date occupied-slot count used by the
capacity rule (spec section 4.2: capacity is evaluated per date, counting
only occupied slots). It counts the occupied entries of the date's grid. -/
def countOccupied (g : Grid) : Nat :=
  (g.filter (fun e => e.2.isSome)).length

/-- Modelled from the spec: a freshly generated grid, all labels empty
(spec section 4.1: lazily initialize them all as empty). -/
def freshGrid : Grid := timeLabels.map (fun t => (t, none))

/-- The Schedule Store: association list from ISO date to Slot Grid
(spec section 3). -/
abbrev Store : Type := List (String × Grid)

/-- The grid stored for a date, if any. -/
def getGrid (s : Store) (d : String) : Option Grid :=
  match s with
  | [] => none
  | (d', g) :: rest => if d' = d then some g else getGrid rest d

/-- The grid stored for a date, defaulting to the empty mapping. -/
def gridOf (s : Store) (d : String) : Grid := (getGrid s d).getD []

/-- Occupant of a (date, time) slot of the store. -/
def getSlot (s : Store) (d t : String) : Option Booking :=
  match getGrid s d with
  | some g => lookupSlot g t
  | none => none

/-- Write one (date, time) entry of the store.  The date is expected to
be present (every mutating operation ensures its grids first); on an
absent date this is the identity. -/
def setStoreSlot (s : Store) (d t : String) (v : Option Booking) : Store :=
  match s with
  | [] => []
  | (d', g) :: rest =>
      if d' = d then (d, setSlot g t v) :: rest
      else (d', g) :: setStoreSlot rest d t v

/-- Modelled from the spec: the Slot Grid generator `ensureGrid`
(spec section 4.1): on first access to a date, install the fixed label
set all-empty; on later access leave the stored grid untouched. -/
def ensureGrid (s : Store) (d : String) : Store :=
  if (getGrid s d).isSome then s else s ++ [(d, freshGrid)]

/-- The structured error reasons of the Booking Engine
(spec section 7). -/
inductive ApiError where
  | slotOccupied
  | invalidTime
  | capacityExceeded
  | slotNotFound
  deriving DecidableEq, Repr

/-- Modelled from the spec: Book(date, time, record)
(spec section 4.2).  Checks, in the contract's order: slot already
occupied, time label valid, per-date capacity; on success stores the new
record with both timestamps set to the operation time `now` and returns
the stored record. -/
def book (s : Store) (d t : String) (p : Patient) (doc : String)
    (now : String) : Except ApiError Booking × Store :=
  let s1 := ensureGrid s d
  if (getSlot s1 d t).isSome then (Except.error ApiError.slotOccupied, s1)
  else if t ∉ timeLabels then (Except.error ApiError.invalidTime, s1)
  else if maxPerDay ≤ countOccupied (gridOf s1 d) then
    (Except.error ApiError.capacityExceeded, s1)
  else
    let stored : Booking :=
      { patient := { p with createdAt := now, lastModified := now },
        doctor := doc }
    (Except.ok stored, setStoreSlot s1 d t (some stored))

/-- Modelled from the spec: Cancel(date, time) (spec section 4.2).
Fails when the slot is already empty; otherwise captures the occupant as
the undo payload, clears the slot, and returns the payload. -/
def cancel (s : Store) (d t : String) : Except ApiError Booking × Store :=
  match getSlot s d t with
  | none => (Except.error ApiError.slotNotFound, s)
  | some b => (Except.ok b, setStoreSlot s d t none)

/-- Modelled from the spec: Restore(date, time, record, doctor)
(spec section 4.2).  Fails when the slot has since been re-booked;
otherwise re-occupies the slot with the given record and doctor exactly
as supplied, leaving the original timestamps intact. -/
def restore (s : Store) (d t : String) (p : Patient) (doc : String) :
    Except ApiError Booking × Store :=
  let s1 := ensureGrid s d
  if (getSlot s1 d t).isSome then (Except.error ApiError.slotOccupied, s1)
  else
    let b : Booking := { patient := p, doctor := doc }
    (Except.ok b, setStoreSlot s1 d t (some b))

/-- Modelled from the spec: Move(date, time, newDate, newTime)
(spec section 4.2).  Checks, in the contract's order: source occupied,
destination free, destination time label valid, and — only when the
destination date differs from the source date — destination-date
capacity.  On success clears the source, occupies the destination with
the same record (timestamps preserved except last-modified), and returns
the destination record. -/
def move (s : Store) (d t nd nt : String) (now : String) :
    Except ApiError Booking × Store :=
  match getSlot s d t with
  | none => (Except.error ApiError.slotNotFound, s)
  | some b =>
    let s1 := ensureGrid s nd
    if (getSlot s1 nd nt).isSome then (Except.error ApiError.slotOccupied, s1)
    else if nt ∉ timeLabels then (Except.error ApiError.invalidTime, s1)
    else if nd ≠ d ∧ maxPerDay ≤ countOccupied (gridOf s1 nd) then
      (Except.error ApiError.capacityExceeded, s1)
    else
      let moved : Booking :=
        { b with patient := { b.patient with lastModified := now } }
      let s2 := setStoreSlot s1 d t none
      (Except.ok moved, setStoreSlot s2 nd nt (some moved))

/-- Filter arguments: each field is absent or a value, with the value
"all" acting as a no-constraint sentinel (spec section 4.3). -/
structure Filters where
  doctor : Option String
  visitType : Option String
  status : Option String
  deriving DecidableEq, Repr

/-- One filter field accepts a record value when the field is absent,
is the sentinel "all", or equals the value (spec section 4.3). -/
def fieldAccepts (f : Option String) (v : String) : Bool :=
  match f with
  | none => true
  | some x => x = "all" ∨ x = v

/-- A booking passes the filters when every supplied field accepts the
corresponding record field (doctor on the slot, visit type and status on
the record). -/
def matchesFilters (f : Filters) (b : Booking) : Bool :=
  fieldAccepts f.doctor b.doctor &&
  fieldAccepts f.visitType b.patient.visitType &&
  fieldAccepts f.status b.patient.status

/-- Modelled from the spec: Filter(date, filters) (spec section 4.3):
the occupied (time, record) pairs of the date's grid that pass the
filters, in ascending time-label order.  Read-only: the store is not
part of the result. -/
def filterSchedule (s : Store) (d : String) (f : Filters) :
    List (String × Booking) :=
  timeLabels.filterMap (fun t =>
    match getSlot s d t with
    | some b => if matchesFilters f b then some (t, b) else none
    | none => none)

/-- The derived view returned by Statistics(date). -/
structure Stats where
  total : Nat
  occupied : Nat
  free : Nat
  utilization : ℚ
  deriving DecidableEq, Repr

/-- Modelled from the spec: Statistics(date) (spec section 4.3): total
slot count, occupied count, free count and the utilization quotient
occupied/total. -/
def statistics (s : Store) (d : String) : Stats :=
  let total := timeLabels.length
  let occ := countOccupied (gridOf s d)
  { total := total, occupied := occ, free := total - occ,
    utilization := (occ : ℚ) / (total : ℚ) }

/-- A client request: HTTP method and endpoint path including the query
string, as built by the api object of frontend/src/services/api.ts. -/
structure Request where
  method : String
  endpoint : String
  deriving DecidableEq, Repr

/-- Embedded from api.ts (getAvailableSlots, lines 106-109): the request
path, appending the doctor query parameter exactly when the JavaScript
value `doctorId` is truthy, i.e. present and non-empty. -/
def availableSlotsURL (date : String) (doctorId : Option String) : String :=
  let params :=
    match doctorId with
    | some id => if id = "" then "" else "?doctor=" ++ id
    | none => ""
  "/api/schedule/" ++ date ++ "/available" ++ params

/-- Embedded from api.ts (getFilteredSchedule, lines 114-125): each
filter field is appended to the query exactly when it is truthy and not
the string "all"; the "?" is prepended only to a non-empty query. -/
def filteredScheduleURL (date : String) (f : Filters) : String :=
  let entries : List (String × String) :=
    (match f.doctor with
     | some v => if v ≠ "" ∧ v ≠ "all" then [("doctor", v)] else []
     | none => []) ++
    (match f.visitType with
     | some v => if v ≠ "" ∧ v ≠ "all" then [("visitType", v)] else []
     | none => []) ++
    (match f.status with
     | some v => if v ≠ "" ∧ v ≠ "all" then [("status", v)] else []
     | none => [])
  let queryString :=
    String.intercalate "&" (entries.map (fun e => e.1 ++ "=" ++ e.2))
  "/api/schedule/" ++ date ++ "/filtered" ++
    (if queryString = "" then "" else "?" ++ queryString)

/-- The body of an HTTP error response as the client sees it: when the
body parses as JSON, the optional string value of its detail field. -/
structure ErrorBody where
  detail : Option String
  deriving DecidableEq, Repr

/-- An HTTP response as observed by the client: the ok flag, the numeric
status, the status text, and the parse outcome of the body (`none` when
the body is not valid JSON). -/
structure HttpResponse where
  ok : Bool
  status : Nat
  statusText : String
  body : Option ErrorBody
  deriving DecidableEq, Repr

/-- Embedded from api.ts (fetchAPI, lines 42-62).  On ok the parsed body
is returned (an unparseable body propagates the parse failure).  On not
ok, the error object is the parsed body, falling back to a synthetic
object whose detail is the status text when parsing fails; the thrown
message is the object's detail when that is truthy, else
"HTTP error <status>".  The outer catch only logs and rethrows. -/
def fetchAPI (r : HttpResponse) : Except String ErrorBody :=
  if r.ok then
    match r.body with
    | some j => Except.ok j
    | none => Except.error "Unexpected end of JSON input"
  else
    let errObj : ErrorBody :=
      match r.body with
      | some j => j
      | none => { detail := some r.statusText }
    let msg :=
      match errObj.detail with
      | some dtext =>
          if dtext = "" then "HTTP error " ++ toString r.status else dtext
      | none => "HTTP error " ++ toString r.status
    Except.error msg

/-- Every method of the api object returns the value of fetchAPI applied
to the server's response to the request it built (api.ts lines 67-189):
the method's result on a given server behaviour is fetchAPI of that
response. -/
def apiSend (server : Request → HttpResponse) (req : Request) :
    Except String ErrorBody :=
  fetchAPI (server req)

/-- Spec-side description of the rejection message, written from the
claim's words for comparison with fetchAPI: the detail field when the
body parses and detail is non-empty; the status text when the body is
unparseable (and non-empty, the same truthiness test the code applies to
the synthetic detail); otherwise "HTTP error <status>". -/
def claimedErrorMessage (r : HttpResponse) : String :=
  match r.body with
  | some j =>
      match j.detail with
      | some dtext =>
          if dtext = "" then "HTTP error " ++ toString r.status else dtext
      | none => "HTTP error " ++ toString r.status
  | none =>
      if r.statusText = "" then "HTTP error " ++ toString r.status
      else r.statusText

/-- A Booking Record with a given name and defaults for the remaining
attributes, used to build concrete schedule states. -/
def mkPatient (n : String) : Patient :=
  { name := n, condition := "", phone := "", email := "", dateOfBirth := "",
    address := "", insuranceProvider := "", insuranceId := "",
    emergencyContactName := "", emergencyContactPhone := "", notes := "",
    visitType := "routine", status := "confirmed", tags := [],
    createdAt := "2026-01-04T10:30:00",
    lastModified := "2026-01-04T10:30:00" }

/-- A concrete booking assigned to doctor chen. -/
def chenBooking : Booking := { patient := mkPatient "Alice Adams", doctor := "chen" }

/-- A concrete booking assigned to doctor park. -/
def parkBooking : Booking := { patient := mkPatient "Bob Brown", doctor := "park" }

/-- The patient of the spec's section 8 example. -/
def johnSmith : Patient :=
  { mkPatient "John Smith" with
    condition := "Annual physical examination", visitType := "annual",
    status := "confirmed" }

/-- A store with one date whose 09:00 slot is occupied by chen's
booking. -/
def oneBookingStore : Store :=
  [("2026-01-07", setSlot freshGrid "09:00" (some chenBooking))]

/-- A store with one date holding a chen booking at 09:00 and a park
booking at 09:30. -/
def twoBookingStore : Store :=
  [("2026-01-07",
    setSlot (setSlot freshGrid "09:00" (some chenBooking)) "09:30"
      (some parkBooking))]

/-- A grid holding sixteen occupied slots while the valid label 16:30 is
still empty: the first fifteen grid labels plus an off-grid 08:00 entry,
a state loadable from the persisted JSON file (spec section 6 puts no
constraint on the stored keys beyond being time labels mapped to null or
a record). -/
def fullPlusGrid : Grid :=
  ("08:00", some chenBooking) ::
    (timeLabels.take 15).map (fun t => (t, some chenBooking))

/-- A store whose two dates each hold sixteen occupied slots with the
valid label 16:30 empty. -/
def atCapacityStore : Store :=
  [("2026-01-07", fullPlusGrid), ("2026-01-08", fullPlusGrid)]

/-! ### Basic lemmas about grids and the store -/

theorem lookupSlot_setSlot (g : Grid) (t : String) (v : Option Booking) :
    lookupSlot (setSlot g t v) t = v := by
  induction g with
  | nil => simp [setSlot, lookupSlot]
  | cons e rest ih =>
      by_cases h : e.1 = t <;> simp [setSlot, lookupSlot, h, ih]

theorem setSlot_setSlot (g : Grid) (t : String) (a b : Option Booking) :
    setSlot (setSlot g t a) t b = setSlot g t b := by
  induction g with
  | nil => simp [setSlot]
  | cons e rest ih =>
      by_cases h : e.1 = t <;> simp [setSlot, h, ih]

theorem setSlot_of_lookup (g : Grid) (t : String) (b : Booking)
    (h : lookupSlot g t = some b) : setSlot g t (some b) = g := by
  induction g with
  | nil => simp [lookupSlot] at h
  | cons e rest ih =>
      obtain ⟨t1, v1⟩ := e
      by_cases he : t1 = t
      · simp [lookupSlot, he] at h
        simp [setSlot, he, h]
      · simp [lookupSlot, he] at h
        simp [setSlot, he, ih h]

theorem getGrid_append_of_some (s l : Store) (d : String) (g : Grid)
    (h : getGrid s d = some g) : getGrid (s ++ l) d = some g := by
  induction s with
  | nil => simp [getGrid] at h
  | cons e rest ih =>
      by_cases he : e.1 = d
      · simp [getGrid, he] at h
        simp [getGrid, he, h]
      · simp [getGrid, he] at h
        simp [getGrid, he, ih h]

theorem getGrid_append_of_none (s l : Store) (d : String)
    (h : getGrid s d = none) : getGrid (s ++ l) d = getGrid l d := by
  induction s with
  | nil => simp
  | cons e rest ih =>
      by_cases he : e.1 = d
      · simp [getGrid, he] at h
      · simp [getGrid, he] at h
        simp [getGrid, he, ih h]

theorem ensureGrid_of_present (s : Store) (d : String)
    (h : (getGrid s d).isSome) : ensureGrid s d = s := by
  simp [ensureGrid, h]

theorem getGrid_ensureGrid_isSome (s : Store) (d : String) :
    (getGrid (ensureGrid s d) d).isSome := by
  unfold ensureGrid
  by_cases h : (getGrid s d).isSome
  · simp [h]
  · cases hg : getGrid s d with
    | some g => simp [hg] at h
    | none =>
        simp [h, getGrid_append_of_none s [(d, freshGrid)] d hg, getGrid]

theorem getGrid_isSome_of_getSlot (s : Store) (d t : String) (b : Booking)
    (h : getSlot s d t = some b) : (getGrid s d).isSome := by
  unfold getSlot at h
  cases hg : getGrid s d with
  | some g => simp
  | none => simp [hg] at h

theorem getGrid_setStoreSlot_self (s : Store) (d t : String)
    (v : Option Booking) :
    getGrid (setStoreSlot s d t v) d = (getGrid s d).map (fun g => setSlot g t v) := by
  induction s with
  | nil => simp [setStoreSlot, getGrid]
  | cons e rest ih =>
      by_cases he : e.1 = d
      · simp [setStoreSlot, getGrid, he]
      · simp [setStoreSlot, getGrid, he, ih]

theorem getGrid_setStoreSlot_other (s : Store) (d d' t : String)
    (v : Option Booking) (h : d' ≠ d) :
    getGrid (setStoreSlot s d t v) d' = getGrid s d' := by
  induction s with
  | nil => simp [setStoreSlot]
  | cons e rest ih =>
      obtain ⟨d1, g1⟩ := e
      by_cases he : d1 = d
      · simp [setStoreSlot, getGrid, he, Ne.symm h]
      · by_cases he' : d1 = d' <;>
          simp [setStoreSlot, getGrid, he, he', ih, h]

theorem getSlot_setStoreSlot_self (s : Store) (d t : String)
    (v : Option Booking) (h : (getGrid s d).isSome) :
    getSlot (setStoreSlot s d t v) d t = v := by
  cases hg : getGrid s d with
  | none => simp [hg] at h
  | some g =>
      simp [getSlot, getGrid_setStoreSlot_self, hg, lookupSlot_setSlot]

theorem setStoreSlot_setStoreSlot (s : Store) (d t : String)
    (a b : Option Booking) :
    setStoreSlot (setStoreSlot s d t a) d t b = setStoreSlot s d t b := by
  induction s with
  | nil => simp [setStoreSlot]
  | cons e rest ih =>
      by_cases he : e.1 = d
      · simp [setStoreSlot, he, setSlot_setSlot]
      · simp [setStoreSlot, he, ih]

theorem setStoreSlot_of_getSlot (s : Store) (d t : String) (b : Booking)
    (h : getSlot s d t = some b) : setStoreSlot s d t (some b) = s := by
  induction s with
  | nil => simp [setStoreSlot]
  | cons e rest ih =>
      obtain ⟨d1, g1⟩ := e
      by_cases he : d1 = d
      · unfold getSlot at h
        simp [getGrid, he] at h
        simp [setStoreSlot, he, setSlot_of_lookup _ _ _ h]
      · unfold getSlot at h
        simp only [getGrid, he, if_false] at h
        simp [setStoreSlot, he]
        exact ih (by simp [getSlot]; exact h)

/-! ### Claim theorems -/

/-- C1: when the slot (d, t) already holds a booking record — as it does
after a Book with no intervening Cancel or Move-away of that slot — a
further Book(d, t, r) call fails with SlotOccupiedError for every record
and doctor, the store is left exactly as it was, and the slot's existing
record is unchanged. -/
theorem book_on_occupied_slot (s : Store) (d t : String) (b : Booking)
    (p : Patient) (doc now : String) (h : getSlot s d t = some b) :
    book s d t p doc now = (Except.error ApiError.slotOccupied, s) ∧
    getSlot (book s d t p doc now).2 d t = some b := by
  have hp : (getGrid s d).isSome := getGrid_isSome_of_getSlot s d t b h
  have he : ensureGrid s d = s := ensureGrid_of_present s d hp
  have hb : book s d t p doc now = (Except.error ApiError.slotOccupied, s) := by
    simp [book, he, h]
  exact ⟨hb, by rw [hb]; exact h⟩

/-- Witness for C1: booking 2026-01-07 09:00 over chen's existing
booking fails with SlotOccupiedError and leaves the store unchanged. -/
theorem book_on_occupied_slot_witness :
    book oneBookingStore "2026-01-07" "09:00" (mkPatient "Eve Evans") "park"
        "2026-01-05T09:00:00"
      = (Except.error ApiError.slotOccupied, oneBookingStore) ∧
    getSlot (book oneBookingStore "2026-01-07" "09:00" (mkPatient "Eve Evans")
        "park" "2026-01-05T09:00:00").2 "2026-01-07" "09:00"
      = some chenBooking :=
  book_on_occupied_slot oneBookingStore "2026-01-07" "09:00" chenBooking
    (mkPatient "Eve Evans") "park" "2026-01-05T09:00:00" (by decide)

/-- C2: cancelling an occupied slot returns its booking as the undo
payload, and restoring with exactly that payload returns the same
booking — timestamps and all other fields untouched — and reproduces the
whole store as it was before the Cancel; Cancel followed by Restore is
the identity on the slot. -/
theorem cancel_then_restore_is_identity (s : Store) (d t : String)
    (b : Booking) (h : getSlot s d t = some b) :
    (cancel s d t).1 = Except.ok b ∧
    restore (cancel s d t).2 d t b.patient b.doctor = (Except.ok b, s) := by
  have hp : (getGrid s d).isSome := getGrid_isSome_of_getSlot s d t b h
  have hc : cancel s d t = (Except.ok b, setStoreSlot s d t none) := by
    simp [cancel, h]
  refine ⟨by simp [hc], ?_⟩
  rw [hc]
  have hp1 : (getGrid (setStoreSlot s d t none) d).isSome := by
    rw [getGrid_setStoreSlot_self]
    cases hg : getGrid s d with
    | none => simp [hg] at hp
    | some g => simp
  have he : ensureGrid (setStoreSlot s d t none) d = setStoreSlot s d t none :=
    ensureGrid_of_present _ _ hp1
  have hslot : getSlot (setStoreSlot s d t none) d t = none :=
    getSlot_setStoreSlot_self s d t none hp
  simp [restore, he, hslot, setStoreSlot_setStoreSlot,
    setStoreSlot_of_getSlot s d t b h]

/-- Witness for C2: cancelling chen's 2026-01-07 09:00 booking and
restoring the captured payload reproduces the original store. -/
theorem cancel_then_restore_is_identity_witness :
    (cancel oneBookingStore "2026-01-07" "09:00").1 = Except.ok chenBooking ∧
    restore (cancel oneBookingStore "2026-01-07" "09:00").2 "2026-01-07"
        "09:00" chenBooking.patient chenBooking.doctor
      = (Except.ok chenBooking, oneBookingStore) :=
  cancel_then_restore_is_identity oneBookingStore "2026-01-07" "09:00"
    chenBooking (by decide)

/-- C3: on a date already holding the maximum permitted number of
occupied slots (16), Book on a still-empty valid time fails with
CapacityExceededError for every record and doctor — capacity counts
occupied slots per date, not per doctor — and the store is unchanged. -/
theorem book_at_capacity_fails (s : Store) (d t : String) (g : Grid)
    (p : Patient) (doc now : String)
    (hg : getGrid s d = some g) (hcap : maxPerDay ≤ countOccupied g)
    (hempty : getSlot s d t = none) (hvalid : t ∈ timeLabels) :
    book s d t p doc now = (Except.error ApiError.capacityExceeded, s) := by
  have he : ensureGrid s d = s := ensureGrid_of_present s d (by simp [hg])
  simp [book, he, hempty, hvalid, gridOf, hg, hcap]

/-- Witness for C3: with sixteen occupied slots on 2026-01-07 and the
valid label 16:30 still empty, Book fails with CapacityExceededError. -/
theorem book_at_capacity_fails_witness :
    book atCapacityStore "2026-01-07" "16:30" (mkPatient "Frank Field")
        "williams" "2026-01-06T12:00:00"
      = (Except.error ApiError.capacityExceeded, atCapacityStore) :=
  book_at_capacity_fails atCapacityStore "2026-01-07" "16:30" fullPlusGrid
    (mkPatient "Frank Field") "williams" "2026-01-06T12:00:00"
    (by decide) (by decide) (by decide) (by decide)

/-- C4: moving an occupied source slot onto an occupied destination slot
fails with SlotOccupiedError and leaves the whole schedule state exactly
as it was; in particular the source slot still holds its record. -/
theorem move_to_occupied_slot_fails (s : Store) (d t1 d2 t2 : String)
    (b1 b2 : Booking) (now : String)
    (h1 : getSlot s d t1 = some b1) (h2 : getSlot s d2 t2 = some b2) :
    move s d t1 d2 t2 now = (Except.error ApiError.slotOccupied, s) ∧
    getSlot (move s d t1 d2 t2 now).2 d t1 = some b1 := by
  have hp2 : (getGrid s d2).isSome := getGrid_isSome_of_getSlot s d2 t2 b2 h2
  have he : ensureGrid s d2 = s := ensureGrid_of_present s d2 hp2
  have hm : move s d t1 d2 t2 now = (Except.error ApiError.slotOccupied, s) := by
    simp [move, h1, he, h2]
  exact ⟨hm, by rw [hm]; exact h1⟩

/-- Witness for C4: moving chen's 09:00 booking onto park's occupied
09:30 slot fails with SlotOccupiedError and changes nothing. -/
theorem move_to_occupied_slot_fails_witness :
    move twoBookingStore "2026-01-07" "09:00" "2026-01-07" "09:30"
        "2026-01-06T12:00:00"
      = (Except.error ApiError.slotOccupied, twoBookingStore) ∧
    getSlot (move twoBookingStore "2026-01-07" "09:00" "2026-01-07" "09:30"
        "2026-01-06T12:00:00").2 "2026-01-07" "09:00" = some chenBooking :=
  move_to_occupied_slot_fails twoBookingStore "2026-01-07" "09:00"
    "2026-01-07" "09:30" chenBooking parkBooking "2026-01-06T12:00:00"
    (by decide) (by decide)

/-- C5: Move checks capacity only for cross-date moves: with the source
date at the per-day limit, a same-date move to an empty valid slot still
succeeds, while a move to an empty valid slot of a different date that
is at the limit fails with CapacityExceededError and changes nothing. -/
theorem move_capacity_checked_only_cross_date
    (s : Store) (d t1 t2 d2 t2' : String) (b : Booking) (g g2 : Grid)
    (now : String)
    (hsrc : getSlot s d t1 = some b)
    (hg : getGrid s d = some g) (hcap : maxPerDay ≤ countOccupied g)
    (hdst : getSlot s d t2 = none) (hval : t2 ∈ timeLabels)
    (hne : d2 ≠ d)
    (hg2 : getGrid s d2 = some g2) (hcap2 : maxPerDay ≤ countOccupied g2)
    (hdst2 : getSlot s d2 t2' = none) (hval2 : t2' ∈ timeLabels) :
    (∃ r s', move s d t1 d t2 now = (Except.ok r, s')) ∧
    move s d t1 d2 t2' now = (Except.error ApiError.capacityExceeded, s) := by
  constructor
  · have he : ensureGrid s d = s := ensureGrid_of_present s d (by simp [hg])
    refine ⟨{ b with patient := { b.patient with lastModified := now } },
            setStoreSlot (setStoreSlot s d t1 none) d t2
              (some { b with patient := { b.patient with lastModified := now } }),
            ?_⟩
    simp [move, hsrc, he, hdst, hval]
  · have he2 : ensureGrid s d2 = s := ensureGrid_of_present s d2 (by simp [hg2])
    simp [move, hsrc, he2, hdst2, hval2, hne, gridOf, hg2, hcap2]

/-- Witness for C5: with both 2026-01-07 and 2026-01-08 at sixteen
occupied slots, moving 09:00 to 16:30 within 2026-01-07 succeeds, while
moving it to 16:30 of 2026-01-08 fails with CapacityExceededError. -/
theorem move_capacity_checked_only_cross_date_witness :
    (∃ r s', move atCapacityStore "2026-01-07" "09:00" "2026-01-07" "16:30"
        "2026-01-08T08:00:00" = (Except.ok r, s')) ∧
    move atCapacityStore "2026-01-07" "09:00" "2026-01-08" "16:30"
        "2026-01-08T08:00:00"
      = (Except.error ApiError.capacityExceeded, atCapacityStore) :=
  move_capacity_checked_only_cross_date atCapacityStore "2026-01-07" "09:00"
    "16:30" "2026-01-08" "16:30" chenBooking fullPlusGrid fullPlusGrid
    "2026-01-08T08:00:00" (by decide) (by decide) (by decide) (by decide)
    (by decide) (by decide) (by decide) (by decide) (by decide) (by decide)

/-- C6: the grid generator produces exactly
(dayEnd - dayStart) / interval distinct time labels; ensuring a date's
grid twice is the same as ensuring it once (same label set), and
ensuring a grid never clears or alters any booking already stored. -/
theorem ensureGrid_spec (s : Store) (d d' t : String) (b : Booking) :
    freshGrid.map Prod.fst = timeLabels ∧
    timeLabels.length = (dayEnd - dayStart) / interval ∧
    timeLabels.Nodup ∧
    ensureGrid (ensureGrid s d) d = ensureGrid s d ∧
    (getSlot s d' t = some b → getSlot (ensureGrid s d) d' t = some b) := by
  refine ⟨by simp [freshGrid, List.map_map, Function.comp_def],
    by simp [timeLabels], by decide, ?_, ?_⟩
  · exact ensureGrid_of_present _ _ (getGrid_ensureGrid_isSome s d)
  · intro h
    unfold ensureGrid
    by_cases hp : (getGrid s d).isSome
    · simpa [hp] using h
    · simp only [hp, if_false]
      have hg' : (getGrid s d').isSome := getGrid_isSome_of_getSlot s d' t b h
      cases hgg : getGrid s d' with
      | none => simp [hgg] at hg'
      | some g =>
          have hap := getGrid_append_of_some s [(d, freshGrid)] d' g hgg
          unfold getSlot at h ⊢
          simp only [hgg] at h
          simp [hap, h]

/-- Witness for C6: ensuring 2026-01-07 a second time on the one-booking
store changes nothing and keeps chen's 09:00 booking. -/
theorem ensureGrid_spec_witness :
    ensureGrid (ensureGrid oneBookingStore "2026-01-07") "2026-01-07"
      = ensureGrid oneBookingStore "2026-01-07" ∧
    getSlot (ensureGrid oneBookingStore "2026-01-07") "2026-01-07" "09:00"
      = some chenBooking :=
  ⟨(ensureGrid_spec oneBookingStore "2026-01-07" "2026-01-07" "09:00"
      chenBooking).2.2.2.1,
   (ensureGrid_spec oneBookingStore "2026-01-07" "2026-01-07" "09:00"
      chenBooking).2.2.2.2 (by decide)⟩

/-- C7: Filter returns exactly the occupied (time, record) pairs of the
date's grid accepted by every supplied filter field (absent fields and
the sentinel "all" constrain nothing), in strictly ascending time-label
order; it is read-only, returning a list and no store. -/
theorem filterSchedule_spec (s : Store) (d : String) (f : Filters)
    (t : String) (b : Booking) :
    ((t, b) ∈ filterSchedule s d f ↔
      t ∈ timeLabels ∧ getSlot s d t = some b ∧ matchesFilters f b = true) ∧
    (filterSchedule s d f).Pairwise (fun x y => x.1 < y.1) := by
  constructor
  · unfold filterSchedule
    rw [List.mem_filterMap]
    constructor
    · rintro ⟨a, ha, hfa⟩
      cases hga : getSlot s d a with
      | none => simp [hga] at hfa
      | some b' =>
          simp only [hga] at hfa
          by_cases hm : matchesFilters f b'
          · simp only [hm, if_true] at hfa
            have hat : a = t := congrArg Prod.fst (Option.some.inj hfa)
            have hbb : b' = b := congrArg Prod.snd (Option.some.inj hfa)
            subst hat
            subst hbb
            exact ⟨ha, hga, hm⟩
          · simp [hm] at hfa
    · rintro ⟨ht, hg, hm⟩
      exact ⟨t, ht, by simp [hg, hm]⟩
  · apply List.Pairwise.filterMap
      (R := fun a c : String => a < c)
    · intro a a' hlt x hx y hy
      cases hga : getSlot s d a with
      | none => simp [hga] at hx
      | some b1 =>
          cases hga' : getSlot s d a' with
          | none => simp [hga'] at hy
          | some b2 =>
              simp only [hga, Option.mem_def] at hx
              simp only [hga', Option.mem_def] at hy
              by_cases h1 : matchesFilters f b1
              · by_cases h2 : matchesFilters f b2
                · simp only [h1, if_true] at hx
                  simp only [h2, if_true] at hy
                  have hx1 : x.1 = a := by
                    rw [← Option.some.inj hx]
                  have hy1 : y.1 = a' := by
                    rw [← Option.some.inj hy]
                  rw [hx1, hy1]
                  exact hlt
                · simp [h2] at hy
              · simp [h1] at hx
    · refine List.Pairwise.imp (fun h => String.lt_iff_toList_lt.mpr h) ?_
      decide

/-- Witness for C7: on a date with chen and park bookings, the filter
doctor = chen returns exactly the chen pair at 09:00. -/
theorem filterSchedule_spec_witness :
    (("09:00", chenBooking) ∈
      filterSchedule twoBookingStore "2026-01-07"
        { doctor := some "chen", visitType := none, status := none }) ∧
    ¬ (("09:30", parkBooking) ∈
      filterSchedule twoBookingStore "2026-01-07"
        { doctor := some "chen", visitType := none, status := none }) :=
  ⟨(filterSchedule_spec twoBookingStore "2026-01-07"
      { doctor := some "chen", visitType := none, status := none }
      "09:00" chenBooking).1.mpr (by decide),
   fun hmem =>
     absurd ((filterSchedule_spec twoBookingStore "2026-01-07"
       { doctor := some "chen", visitType := none, status := none }
       "09:30" parkBooking).1.mp hmem) (by decide)⟩

/-- C8: Statistics reports the total slot count, the occupied count,
free = total - occupied, and utilization = occupied / total, with a
zero-occupancy date yielding ratio 0 rather than an error; booking John
Smith at 09:30 of an otherwise empty 16-slot day yields occupied = 1,
free = 15, utilization = 1/16. -/
theorem statistics_spec (s : Store) (d : String) :
    (statistics s d).total = timeLabels.length ∧
    (statistics s d).occupied = countOccupied (gridOf s d) ∧
    (statistics s d).free
      = (statistics s d).total - (statistics s d).occupied ∧
    (statistics s d).utilization
      = ((statistics s d).occupied : ℚ) / ((statistics s d).total : ℚ) ∧
    ((statistics s d).occupied = 0 → (statistics s d).utilization = 0) ∧
    ((statistics (book ([] : Store) "2026-01-07" "09:30" johnSmith "chen"
          "2026-01-07T08:00:00").2 "2026-01-07").occupied = 1 ∧
      (statistics (book ([] : Store) "2026-01-07" "09:30" johnSmith "chen"
          "2026-01-07T08:00:00").2 "2026-01-07").free = 15 ∧
      (statistics (book ([] : Store) "2026-01-07" "09:30" johnSmith "chen"
          "2026-01-07T08:00:00").2 "2026-01-07").total = 16 ∧
      (statistics (book ([] : Store) "2026-01-07" "09:30" johnSmith "chen"
          "2026-01-07T08:00:00").2 "2026-01-07").utilization = 1 / 16) := by
  refine ⟨rfl, rfl, rfl, rfl, ?_, by decide, by decide, by decide, ?_⟩
  · intro h
    have hu : (statistics s d).utilization
        = ((statistics s d).occupied : ℚ) / ((statistics s d).total : ℚ) := rfl
    rw [hu, h]
    simp
  · have hocc : countOccupied (gridOf (book ([] : Store) "2026-01-07" "09:30"
        johnSmith "chen" "2026-01-07T08:00:00").2 "2026-01-07") = 1 := by
      decide
    have hlen : timeLabels.length = 16 := by decide
    show (countOccupied (gridOf (book ([] : Store) "2026-01-07" "09:30"
        johnSmith "chen" "2026-01-07T08:00:00").2 "2026-01-07") : ℚ)
        / (timeLabels.length : ℚ) = 1 / 16
    rw [hocc, hlen]
    norm_num

/-- Witness for C8: on the empty date 2026-01-08 the utilization
quotient is 0, by the zero-occupancy conjunct of statistics_spec. -/
theorem statistics_spec_witness :
    (statistics ([] : Store) "2026-01-08").utilization = 0 :=
  (statistics_spec ([] : Store) "2026-01-08").2.2.2.2.1 (by decide)

/-- C9: the client appends the doctor query parameter exactly when the
doctorId argument is a truthy (present and non-empty) string, and unlike
getFilteredSchedule it does not treat "all" as a sentinel — doctorId =
"all" yields a URL containing doctor=all, while the filtered-schedule
URL drops doctor = "all" entirely. -/
theorem availableSlots_forwards_all (date id : String) (h : id ≠ "") :
    availableSlotsURL date none = "/api/schedule/" ++ date ++ "/available" ∧
    availableSlotsURL date (some "")
      = "/api/schedule/" ++ date ++ "/available" ∧
    availableSlotsURL date (some id)
      = "/api/schedule/" ++ date ++ "/available" ++ ("?doctor=" ++ id) ∧
    availableSlotsURL date (some "all")
      = "/api/schedule/" ++ date ++ "/available" ++ ("?doctor=" ++ "all") ∧
    filteredScheduleURL date
        { doctor := some "all", visitType := none, status := none }
      = "/api/schedule/" ++ date ++ "/filtered" := by
  refine ⟨by simp [availableSlotsURL], by simp [availableSlotsURL],
    ?_, ?_, ?_⟩
  · simp [availableSlotsURL, h, String.append_assoc]
  · simp [availableSlotsURL, String.append_assoc]
  · simp [filteredScheduleURL, String.intercalate]

/-- Witness for C9: for doctorId = "all" the available-slots URL carries
the doctor=all query while the filtered-schedule URL drops it. -/
theorem availableSlots_forwards_all_witness :
    availableSlotsURL "2026-01-07" (some "all")
      = "/api/schedule/2026-01-07/available?doctor=all" ∧
    filteredScheduleURL "2026-01-07"
        { doctor := some "all", visitType := none, status := none }
      = "/api/schedule/2026-01-07/filtered" :=
  ⟨((availableSlots_forwards_all "2026-01-07" "all"
      (by decide)).2.2.2.1).trans (by decide),
   ((availableSlots_forwards_all "2026-01-07" "all"
      (by decide)).2.2.2.2).trans (by decide)⟩

/-- C10: on any response with ok = false, fetchAPI — and hence every api
method, whose result is apiSend of the response to the request it
built — never resolves: it rejects, and the rejection message is the
body's detail field when the body parses with a non-empty detail,
otherwise the status text when the body is unparseable (and non-empty,
the same truthiness test), otherwise "HTTP error <status>". -/
theorem fetchAPI_rejects_on_server_error (server : Request → HttpResponse)
    (req : Request) (h : (server req).ok = false) :
    apiSend server req
      = Except.error (claimedErrorMessage (server req)) := by
  unfold apiSend fetchAPI claimedErrorMessage
  rw [h]
  cases hb : (server req).body with
  | none => simp
  | some j =>
      cases hd : j.detail with
      | none => simp
      | some dtext => simp

/-- Witness for C10: a 409 response whose JSON body carries the detail
"slot already booked" is surfaced as exactly that rejection message. -/
theorem fetchAPI_rejects_on_server_error_witness :
    apiSend
        (fun _ => { ok := false, status := 409, statusText := "Conflict",
                    body := some { detail := some "slot already booked" } })
        { method := "POST", endpoint := "/api/appointments" }
      = Except.error "slot already booked" :=
  (fetchAPI_rejects_on_server_error
    (fun _ => { ok := false, status := 409, statusText := "Conflict",
                body := some { detail := some "slot already booked" } })
    { method := "POST", endpoint := "/api/appointments" } rfl).trans
    (congrArg Except.error (by decide))

end Scheduler
